import Mathlib

/-!
Verification of the Discord summary bot (`bot.py`) against its design
specification. The Python source is shallowly embedded: the in-memory
`user_last_read` structure (a dict of dicts) becomes nested association
lists with Python-dict lookup/assignment semantics, ISO-8601 UTC
timestamps become integers (seconds; `datetime.isoformat` and
`datetime.fromisoformat` are mutually inverse and order-preserving, so
the integer embedding is faithful to every comparison the code makes),
and each call of `datetime.utcnow()` is given the value of the
monotonically advancing wall clock at the moment that call executes.
External collaborators (the Discord transport, the OpenAI summarizer,
the Fear & Greed HTTP API) are parameters of the embedded functions.
-/

/-! ## Association lists with Python dict semantics

A Python dict, observed through `d[k] = v` and `d.get(k)`, behaves like
an association list whose assignment overwrites the first (unique)
binding of the key. -/

def lookupA {α : Type} : List (String × α) → String → Option α
  | [], _ => none
  | (k, v) :: rest, key => if k = key then some v else lookupA rest key

def insertA {α : Type} : List (String × α) → String → α → List (String × α)
  | [], key, val => [(key, val)]
  | (k, v) :: rest, key, val =>
    if k = key then (key, val) :: rest else (k, v) :: insertA rest key val

theorem lookupA_insertA_self {α : Type} (m : List (String × α)) (k : String) (v : α) :
    lookupA (insertA m k v) k = some v := by
  induction m with
  | nil => simp [insertA, lookupA]
  | cons hd tl ih =>
    obtain ⟨k0, v0⟩ := hd
    by_cases h : k0 = k
    · simp [insertA, h, lookupA]
    · simp [insertA, h, lookupA, ih]

theorem lookupA_insertA_ne {α : Type} (m : List (String × α)) (k k' : String) (v : α)
    (hne : k ≠ k') : lookupA (insertA m k v) k' = lookupA m k' := by
  induction m with
  | nil => simp [insertA, lookupA, hne]
  | cons hd tl ih =>
    obtain ⟨k0, v0⟩ := hd
    by_cases h : k0 = k
    · subst h
      simp [insertA, lookupA, hne]
    · simp [insertA, h, lookupA, ih]

/-! ## Read cursors (`user_last_read`, bot.py lines 30–31, 272–297)

`user_last_read` is `defaultdict(dict)`: userId → (channelId → ISO
timestamp). Timestamps are embedded as `Int` seconds. -/

abbrev ChanCursors := List (String × Int)
abbrev UserCursors := List (String × ChanCursors)

/-- `user_last_read[user_id].get(str(channel.id))` (bot.py line 273):
the `defaultdict` yields `{}` for an unknown user, whose `.get` yields
`None`. -/
def lookupCursor (m : UserCursors) (u c : String) : Option Int :=
  lookupA ((lookupA m u).getD []) c

/-- Spec operation `resolveBoundary` as implemented inline at bot.py
lines 273–279: the stored `last_read` when present, otherwise
`datetime.utcnow() - timedelta(days=1)`; `now` is the clock value at
that `utcnow()` call and 86400 is one day in seconds. Total: it never
fails. -/
def resolveBoundary (m : UserCursors) (u c : String) (now : Int) : Int :=
  match lookupCursor m u c with
  | some t => t
  | none => now - 86400

/-- Spec operation `markRead` as implemented inline at bot.py line 297:
`user_last_read[user_id][str(channel.id)] = t` — a dict overwrite at
both levels. -/
def markRead (m : UserCursors) (u c : String) (t : Int) : UserCursors :=
  insertA m u (insertA ((lookupA m u).getD []) c t)

theorem lookupCursor_markRead_self (m : UserCursors) (u c : String) (t : Int) :
    lookupCursor (markRead m u c t) u c = some t := by
  unfold lookupCursor markRead
  rw [lookupA_insertA_self]
  exact lookupA_insertA_self _ _ _

/-- C4: for every user and channel with no recorded cursor, the since
boundary resolves to the current UTC time minus 24 hours — exactly, and
hence within every tolerance ε ≥ 0 — and resolution is a total function
(it never fails). -/
theorem resolveBoundary_no_cursor (m : UserCursors) (u c : String) (now : Int)
    (h : lookupCursor m u c = none) :
    resolveBoundary m u c now = now - 86400 ∧
    ∀ ε : Int, 0 ≤ ε →
      now - 86400 - ε ≤ resolveBoundary m u c now ∧
      resolveBoundary m u c now ≤ now - 86400 + ε := by
  have hres : resolveBoundary m u c now = now - 86400 := by
    unfold resolveBoundary
    rw [h]
  refine ⟨hres, fun ε hε => ?_⟩
  rw [hres]
  omega

/-- Witness for `resolveBoundary_no_cursor` at a concrete empty store. -/
theorem resolveBoundary_no_cursor_witness :
    resolveBoundary [] "42" "99" 1000000 = 1000000 - 86400 ∧
    ∀ ε : Int, 0 ≤ ε →
      1000000 - 86400 - ε ≤ resolveBoundary [] "42" "99" 1000000 ∧
      resolveBoundary [] "42" "99" 1000000 ≤ 1000000 - 86400 + ε :=
  resolveBoundary_no_cursor [] "42" "99" 1000000 rfl

/-- C5: the read-cursor write is last-write-wins. Recording the same
timestamp twice leaves the resolved boundary equal to that timestamp
both times; after `markRead t1` then `markRead t2` with `t2 > t1` the
boundary is `t2` and never `t1`. -/
theorem markRead_last_write_wins (m : UserCursors) (u c : String) (now t t1 t2 : Int)
    (h12 : t1 < t2) :
    resolveBoundary (markRead m u c t) u c now = t ∧
    resolveBoundary (markRead (markRead m u c t) u c t) u c now = t ∧
    resolveBoundary (markRead (markRead m u c t1) u c t2) u c now = t2 ∧
    resolveBoundary (markRead (markRead m u c t1) u c t2) u c now ≠ t1 := by
  have key : ∀ (m' : UserCursors) (s : Int),
      resolveBoundary (markRead m' u c s) u c now = s := by
    intro m' s
    unfold resolveBoundary
    rw [lookupCursor_markRead_self]
  refine ⟨key m t, key (markRead m u c t) t, key (markRead m u c t1) t2, ?_⟩
  rw [key (markRead m u c t1) t2]
  omega

/-- Witness for `markRead_last_write_wins` at concrete timestamps. -/
theorem markRead_last_write_wins_witness :
    resolveBoundary (markRead [] "u" "c" 7) "u" "c" 50 = 7 ∧
    resolveBoundary (markRead (markRead [] "u" "c" 7) "u" "c" 7) "u" "c" 50 = 7 ∧
    resolveBoundary (markRead (markRead [] "u" "c" 10) "u" "c" 20) "u" "c" 50 = 20 ∧
    resolveBoundary (markRead (markRead [] "u" "c" 10) "u" "c" 20) "u" "c" 50 ≠ 10 :=
  markRead_last_write_wins [] "u" "c" 50 7 10 20 (by decide)

/-! ## The updateme summary pipeline (bot.py lines 79–93, 254–316)

A fetched message (the dict built at bot.py lines 85–90) together with
the one Discord attribute the fetch filter inspects (`author.bot`). A
channel is its id, the readable flag (`channel.history` raises
`discord.Forbidden` when unreadable) and its message history, oldest
first. The summarizer (`summarize_with_openai`) is an external
collaborator and is passed in as an opaque function from the fetched
messages to displayable text (bot.py lines 95–151 wrap every failure of
the OpenAI call into such text, so the collaborator is total). -/

structure Message where
  author : String
  content : String
  timestamp : Int
  attachments : List String
  isBot : Bool
deriving DecidableEq

structure Channel where
  id : String
  readable : Bool
  history : List Message
deriving DecidableEq

/-- `channel.mention` renders as a channel reference built from the id. -/
def Channel.mention (ch : Channel) : String := "<#" ++ ch.id ++ ">"

/-- `fetch_messages` (bot.py lines 79–93): on `discord.Forbidden` the
function returns `None`; otherwise Discord yields up to `limit` messages
created strictly after `after_time`, oldest first, and the loop keeps
those whose author is not a bot. -/
def fetch_messages (ch : Channel) (after_time : Int) (limit : Nat) : Option (List Message) :=
  if ch.readable then
    some (((ch.history.filter fun msg => after_time < msg.timestamp).take limit).filter
      fun msg => !msg.isBot)
  else
    none

/-- Per-channel result of one iteration of the updateme loop. -/
inductive ChannelOutcome where
  | forbidden : ChannelOutcome
  | empty : ChannelOutcome
  | ok : Nat → String → ChannelOutcome
deriving DecidableEq

/-- The per-channel notice appended to `all_summaries`
(bot.py lines 284, 288, 294). -/
def channelNotice (ch : Channel) : ChannelOutcome → String
  | ChannelOutcome.forbidden =>
      "❌ **" ++ ch.mention ++ "**: No permission to read this channel."
  | ChannelOutcome.empty =>
      "✅ **" ++ ch.mention ++ "**: No new messages since your last check."
  | ChannelOutcome.ok n summary =>
      "📊 **" ++ ch.mention ++ "** (" ++ toString n ++ " new messages):\n" ++ summary

/-- One iteration of the `for channel in channels` loop of `update_me`
(bot.py lines 271–297). `tFetch` is the wall clock when the boundary is
resolved at line 279 and the fetch is issued at line 281; `tMark` is the
wall clock at the `datetime.utcnow()` call of line 297, after the fetch
and the summarization have completed (so in every real execution
`tFetch ≤ tMark`). A forbidden or empty fetch `continue`s without
touching the cursor; a non-empty fetch summarizes and then overwrites
the cursor with `tMark`. -/
def processChannel (summ : List Message → String) (cursors : UserCursors)
    (userId : String) (ch : Channel) (tFetch tMark : Int) :
    ChannelOutcome × UserCursors :=
  match fetch_messages ch (resolveBoundary cursors userId ch.id tFetch) 1000 with
  | none => (ChannelOutcome.forbidden, cursors)
  | some msgs =>
    if msgs.isEmpty then
      (ChannelOutcome.empty, cursors)
    else
      (ChannelOutcome.ok msgs.length (summ msgs), markRead cursors userId ch.id tMark)

/-- The whole loop of `update_me` over the mentioned channels, threading
the cursor store and collecting `all_summaries` in order. Each list item
carries the two clock readings of its iteration. -/
def updateLoop (summ : List Message → String) (userId : String) :
    UserCursors → List (Channel × Int × Int) → List String × UserCursors
  | cursors, [] => ([], cursors)
  | cursors, (ch, tFetch, tMark) :: rest =>
    ((channelNotice ch (processChannel summ cursors userId ch tFetch tMark).1) ::
        (updateLoop summ userId (processChannel summ cursors userId ch tFetch tMark).2 rest).1,
      (updateLoop summ userId (processChannel summ cursors userId ch tFetch tMark).2 rest).2)

/-- `update_me` (bot.py lines 254–316): an empty mention list is
rejected up front; otherwise the loop runs and the final cursor store is
persisted (line 300). The initial acknowledgement message and the
transport-side splitting of the reply (lines 266, 302–316) do not touch
the cursors and are not modelled here. -/
def update_me (summ : List Message → String) (cursors : UserCursors)
    (userId : String) (items : List (Channel × Int × Int)) :
    List String × UserCursors :=
  if items.isEmpty then
    (["❌ Please mention at least one channel. Usage: `!updateme #channel1 #channel2`"], cursors)
  else
    updateLoop summ userId cursors items

/-- A readable channel with no history, for the empty-fetch scenario. -/
def chanC1 : Channel := { id := "c1", readable := true, history := [] }

/-- A sample non-bot message with timestamp 900. -/
def msgAlice : Message :=
  { author := "alice", content := "hi", timestamp := 900, attachments := [], isBot := false }

/-- A readable channel holding exactly `msgAlice`. -/
def chanC2 : Channel := { id := "c2", readable := true, history := [msgAlice] }

/-- A sample non-bot message with timestamp 700. -/
def msgBob : Message :=
  { author := "bob", content := "yo", timestamp := 700, attachments := [], isBot := false }

/-- A readable channel holding exactly `msgBob`. -/
def chanC3 : Channel := { id := "c3", readable := true, history := [msgBob] }

/-- C1 counterexample: a channel whose fetch returns zero messages. The
pipeline yields `Empty`, but the `continue` at bot.py line 289 skips the
cursor write of line 297, so the read cursor for the pair is still
absent afterwards — it does not advance to the current time, refuting
the claim at this input. -/
theorem updateme_empty_cursor_counterexample :
    (processChannel (fun _ => "sum") [] "u1" chanC1 100 200).1 = ChannelOutcome.empty ∧
    lookupCursor (processChannel (fun _ => "sum") [] "u1" chanC1 100 200).2 "u1" "c1" = none ∧
    lookupCursor (processChannel (fun _ => "sum") [] "u1" chanC1 100 200).2 "u1" "c1" ≠
      some 200 := by
  refine ⟨rfl, rfl, by decide⟩

/-- C1 amended: when the fetch returns zero messages the pipeline yields
`Empty` and the read cursor for the pair is NOT updated — the whole
cursor store is returned unchanged. -/
theorem processChannel_empty_no_mark (summ : List Message → String)
    (cursors : UserCursors) (userId : String) (ch : Channel) (tFetch tMark : Int)
    (hfetch : fetch_messages ch (resolveBoundary cursors userId ch.id tFetch) 1000 = some []) :
    processChannel summ cursors userId ch tFetch tMark = (ChannelOutcome.empty, cursors) := by
  unfold processChannel
  rw [hfetch]
  simp

/-- Witness for `processChannel_empty_no_mark` at a concrete empty
channel. -/
theorem processChannel_empty_no_mark_witness :
    processChannel (fun _ => "sum") [] "u9" chanC1 5 9 = (ChannelOutcome.empty, []) :=
  processChannel_empty_no_mark (fun _ => "sum") [] "u9" chanC1 5 9 rfl

/-- C2 counterexample: a run with no prior cursor in which the boundary
is resolved and the fetch issued at clock value 1000, one non-bot
message with timestamp 900 is fetched, and the cursor write of bot.py
line 297 executes at clock value 1010 (the clock advanced across the
awaited fetch and summarization). The recorded timestamp is 1010 — not
1000, the wall-clock time at which the fetch was issued, and not 900,
the timestamp of the last fetched message — refuting the claim at this
input. -/
theorem updateme_mark_time_counterexample :
    lookupCursor (processChannel (fun _ => "sum") [] "u2" chanC2 1000 1010).2 "u2" "c2" =
      some 1010 ∧
    (1000 : Int) < 1010 ∧ (1010 : Int) ≠ 1000 ∧ (1010 : Int) ≠ 900 := by
  refine ⟨by decide, by decide, by decide, by decide⟩

/-- C2 amended: on every successful summarize-and-mark pass the
timestamp written into the read cursor is the wall-clock value sampled
when the cursor write itself executes (bot.py line 297, after the fetch
and the summarization complete — hence at or after the fetch-issue
time), and not the timestamp of the last fetched message. -/
theorem processChannel_ok_marks_write_time (summ : List Message → String)
    (cursors : UserCursors) (userId : String) (ch : Channel)
    (tFetch tMark : Int) (msgs : List Message)
    (hfetch : fetch_messages ch (resolveBoundary cursors userId ch.id tFetch) 1000 = some msgs)
    (hne : msgs ≠ []) :
    (processChannel summ cursors userId ch tFetch tMark).1 =
      ChannelOutcome.ok msgs.length (summ msgs) ∧
    lookupCursor (processChannel summ cursors userId ch tFetch tMark).2 userId ch.id =
      some tMark := by
  unfold processChannel
  rw [hfetch]
  simp only [List.isEmpty_eq_true]
  rw [if_neg hne]
  exact ⟨rfl, lookupCursor_markRead_self _ _ _ _⟩

/-- Witness for `processChannel_ok_marks_write_time` at a concrete
one-message channel. -/
theorem processChannel_ok_marks_write_time_witness :
    (processChannel (fun _ => "sum") [] "u3" chanC3 800 900).1 =
      ChannelOutcome.ok 1 "sum" ∧
    lookupCursor (processChannel (fun _ => "sum") [] "u3" chanC3 800 900).2 "u3" "c3" =
      some 900 :=
  processChannel_ok_marks_write_time (fun _ => "sum") [] "u3" chanC3 800 900
    [msgBob] (by decide) (by decide)

theorem updateLoop_append (summ : List Message → String) (userId : String)
    (cursors : UserCursors) (l1 l2 : List (Channel × Int × Int)) :
    updateLoop summ userId cursors (l1 ++ l2) =
      ((updateLoop summ userId cursors l1).1 ++
        (updateLoop summ userId (updateLoop summ userId cursors l1).2 l2).1,
       (updateLoop summ userId (updateLoop summ userId cursors l1).2 l2).2) := by
  induction l1 generalizing cursors with
  | nil => simp [updateLoop]
  | cons hd tl ih =>
    obtain ⟨ch, tFetch, tMark⟩ := hd
    simp [updateLoop, ih]

theorem processChannel_forbidden (summ : List Message → String) (cursors : UserCursors)
    (userId : String) (ch : Channel) (tFetch tMark : Int) (hforb : ch.readable = false) :
    processChannel summ cursors userId ch tFetch tMark =
      (ChannelOutcome.forbidden, cursors) := by
  unfold processChannel fetch_messages
  rw [hforb]
  simp

/-- An unreadable channel, for the permission-denied scenario. -/
def chanForbidden : Channel := { id := "f1", readable := false, history := [] }

/-- C3: when the fetch collaborator signals permission denial for a
channel in a multi-channel updateme batch, that iteration produces the
`Forbidden` outcome, whose notice is the per-channel permission text;
the cursor store is returned untouched by that iteration (so the read
cursor of the pair is not updated); and the batch continues — the
channels after the forbidden one are processed exactly as they would
have been from the cursor state reached before it. -/
theorem update_me_forbidden_continues (summ : List Message → String)
    (cursors : UserCursors) (userId : String)
    (pre post : List (Channel × Int × Int)) (cF : Channel) (tFetch tMark : Int)
    (hforb : cF.readable = false) :
    processChannel summ cursors userId cF tFetch tMark =
      (ChannelOutcome.forbidden, cursors) ∧
    channelNotice cF ChannelOutcome.forbidden =
      "❌ **" ++ cF.mention ++ "**: No permission to read this channel." ∧
    update_me summ cursors userId (pre ++ (cF, tFetch, tMark) :: post) =
      ((updateLoop summ userId cursors pre).1 ++
        channelNotice cF ChannelOutcome.forbidden ::
          (updateLoop summ userId (updateLoop summ userId cursors pre).2 post).1,
       (updateLoop summ userId (updateLoop summ userId cursors pre).2 post).2) := by
  have hstep := processChannel_forbidden summ (updateLoop summ userId cursors pre).2
    userId cF tFetch tMark hforb
  refine ⟨processChannel_forbidden summ cursors userId cF tFetch tMark hforb, rfl, ?_⟩
  have hne : (pre ++ (cF, tFetch, tMark) :: post).isEmpty = false := by
    cases pre <;> simp
  unfold update_me
  rw [hne]
  simp only [Bool.false_eq_true, if_false]
  rw [updateLoop_append]
  simp [updateLoop, hstep]

/-- Witness for `update_me_forbidden_continues`: a two-channel batch in
which the first channel is forbidden and the second is readable; the
forbidden notice comes first, the second channel is still summarized and
its cursor recorded. -/
theorem update_me_forbidden_continues_witness :
    processChannel (fun _ => "sum") [] "u4" chanForbidden 1 2 =
      (ChannelOutcome.forbidden, []) ∧
    channelNotice chanForbidden ChannelOutcome.forbidden =
      "❌ **" ++ chanForbidden.mention ++ "**: No permission to read this channel." ∧
    update_me (fun _ => "sum") [] "u4" ([] ++ (chanForbidden, 1, 2) :: [(chanC3, 3, 4)]) =
      ((updateLoop (fun _ => "sum") "u4" [] []).1 ++
        channelNotice chanForbidden ChannelOutcome.forbidden ::
          (updateLoop (fun _ => "sum") "u4"
            (updateLoop (fun _ => "sum") "u4" [] []).2 [(chanC3, 3, 4)]).1,
       (updateLoop (fun _ => "sum") "u4"
         (updateLoop (fun _ => "sum") "u4" [] []).2 [(chanC3, 3, 4)]).2) :=
  update_me_forbidden_continues (fun _ => "sum") [] "u4" [] [(chanC3, 3, 4)]
    chanForbidden 1 2 rfl

/-! ## Persistence of the cursor store (bot.py lines 42–59)

`save_user_data` runs `json.dump(dict(user_last_read), f)` and
`load_user_data` runs `json.load(f)` followed by
`defaultdict(dict, {k: v for k, v in data.items()})`. On disk the store
is a JSON object of objects of strings: userId → channelId → ISO
timestamp. The JSON text layer is the standard library collaborator; it
is embedded as the JSON tree written for the mapping, with the reading
of that tree back into the nested mapping made explicit. A missing file
or a load failure leaves the in-memory value as it was (the `except`
arm only logs). -/

inductive Json where
  | str : String → Json
  | obj : List (String × Json) → Json

abbrev ChanStore := List (String × String)
abbrev UserStore := List (String × ChanStore)

def encodeChan (c : ChanStore) : Json :=
  Json.obj (c.map fun kv => (kv.1, Json.str kv.2))

def encodeUser (m : UserStore) : Json :=
  Json.obj (m.map fun kv => (kv.1, encodeChan kv.2))

def decodeChanFields : List (String × Json) → Option ChanStore
  | [] => some []
  | (k, Json.str s) :: rest => (decodeChanFields rest).map fun r => (k, s) :: r
  | (_, Json.obj _) :: _ => none

def decodeChan : Json → Option ChanStore
  | Json.obj fs => decodeChanFields fs
  | Json.str _ => none

def decodeUserFields : List (String × Json) → Option UserStore
  | [] => some []
  | (k, j) :: rest =>
    match decodeChan j with
    | some c => (decodeUserFields rest).map fun r => (k, c) :: r
    | none => none

def decodeUser : Json → Option UserStore
  | Json.obj fs => decodeUserFields fs
  | Json.str _ => none

/-- `save_user_data` (bot.py lines 53–59): the whole mapping is written
to `user_data.json`, overwriting prior content; the file then holds its
JSON form. -/
def save_user_data (m : UserStore) : Json := encodeUser m

/-- `load_user_data` (bot.py lines 42–51): if the file is missing the
global keeps its current value; otherwise the parsed content is rebuilt
into `defaultdict(dict, {k: v for k, v in data.items()})`; any failure
is logged and leaves the current value in place. -/
def load_user_data (file : Option Json) (current : UserStore) : UserStore :=
  match file with
  | none => current
  | some j =>
    match decodeUser j with
    | some d => d
    | none => current

theorem decodeChanFields_encode (c : ChanStore) :
    decodeChanFields (c.map fun kv => (kv.1, Json.str kv.2)) = some c := by
  induction c with
  | nil => rfl
  | cons hd tl ih =>
    obtain ⟨k, v⟩ := hd
    simp [decodeChanFields, ih]

theorem decodeChan_encodeChan (c : ChanStore) : decodeChan (encodeChan c) = some c := by
  simp [decodeChan, encodeChan, decodeChanFields_encode]

theorem decodeUserFields_encode (m : UserStore) :
    decodeUserFields (m.map fun kv => (kv.1, encodeChan kv.2)) = some m := by
  induction m with
  | nil => rfl
  | cons hd tl ih =>
    obtain ⟨k, v⟩ := hd
    simp [decodeUserFields, decodeChan_encodeChan, ih]

theorem decodeUser_encodeUser (m : UserStore) : decodeUser (encodeUser m) = some m := by
  simp [decodeUser, encodeUser, decodeUserFields_encode]

/-- C6: saving a non-empty nested string-keyed mapping and then loading
the same store yields a mapping equal to what was saved — save followed
by load is the identity on the persisted mapping (it holds for the empty
mapping too, but the claim only ranges over non-empty ones). -/
theorem save_load_round_trip (m current : UserStore) (_hne : m ≠ []) :
    load_user_data (some (save_user_data m)) current = m := by
  simp [load_user_data, save_user_data, decodeUser_encodeUser]

/-- Witness for `save_load_round_trip` at a concrete two-user store. -/
theorem save_load_round_trip_witness :
    load_user_data
      (some (save_user_data
        [("17", [("901", "2024-01-02T10:00:00")]),
         ("18", [("901", "2024-01-03T11:30:00"), ("902", "2024-01-04T12:00:00")])]))
      [] =
      [("17", [("901", "2024-01-02T10:00:00")]),
       ("18", [("901", "2024-01-03T11:30:00"), ("902", "2024-01-04T12:00:00")])] :=
  save_load_round_trip
    [("17", [("901", "2024-01-02T10:00:00")]),
     ("18", [("901", "2024-01-03T11:30:00"), ("902", "2024-01-04T12:00:00")])]
    [] (by simp)

/-! ## The Fear & Greed scheduler commands (bot.py lines 34–40, 381–457)

`fng_scheduler_settings` is the dict `{enabled, channel_id, time}`;
`savedFile` is the content of `fng_scheduler.json` (none before the
first save); `running` is `fear_greed_scheduler.is_running()`; and
`loopTime` is the (hour, minute) the `tasks.loop` is currently bound to
(initially 20:00 from the decorator at line 225). -/

structure SchedulerSettings where
  enabled : Bool
  channel_id : Option String
  time : String
deriving DecidableEq

structure SchedulerState where
  settings : SchedulerSettings
  savedFile : Option SchedulerSettings
  running : Bool
  loopTime : Nat × Nat
deriving DecidableEq

/-- `save_scheduler_settings` (bot.py lines 71–77): writes the whole
settings dict to `fng_scheduler.json`, overwriting prior content. -/
def save_scheduler_settings (s : SchedulerState) : SchedulerState :=
  { s with savedFile := some s.settings }

/-- Python `str.split(sep)` for a one-character separator: splitting
never yields an empty list of groups ("".split(sep) is [""]). -/
def pySplit (sep : Char) : List Char → List (List Char)
  | [] => [[]]
  | c :: rest =>
    if c = sep then [] :: pySplit sep rest
    else
      match pySplit sep rest with
      | [] => [[c]]
      | g :: gs => (c :: g) :: gs

def digitVal (c : Char) : Nat := c.toNat - '0'.toNat

def pyIntAux : List Char → Nat → Option Nat
  | [], acc => some acc
  | c :: rest, acc => if c.isDigit then pyIntAux rest (acc * 10 + digitVal c) else none

/-- Python `int(s)` on the strings this validator sees: the decimal
value of a non-empty all-digit string, failure (`ValueError`) otherwise.
(Python's `int` also accepts signed/whitespace forms; a negative value
would be rejected by the range check of bot.py line 441 exactly as the
parse failure is, and no claim exercises the other forms.) -/
def pyInt (cs : List Char) : Option Nat :=
  match cs with
  | [] => none
  | _ :: _ => pyIntAux cs 0

/-- `hour, minute = map(int, time_str.split(':'))` (bot.py line 440):
unpacking fails (`ValueError`) unless the split yields exactly two
groups and both parse as integers. -/
def parseHM (time_str : String) : Option (Nat × Nat) :=
  match pySplit ':' time_str.data with
  | [h, m] =>
    match pyInt h, pyInt m with
    | some hv, some mv => some (hv, mv)
    | _, _ => none
  | _ => none

def timeFormatError : String := "❌ Ungültiges Zeitformat. Verwende HH:MM (z.B. 20:00)"

/-- `fng_time` (bot.py lines 432–457): parse and range-check the time
string; on any `ValueError` reply with the usage notice and change
nothing; otherwise store and persist the new time string, and if the
loop is running, cancel it, rebind it to the new time and start it again
when still enabled. -/
def fng_time (s : SchedulerState) (time_str : String) : SchedulerState × String :=
  match parseHM time_str with
  | none => (s, timeFormatError)
  | some (hour, minute) =>
    if hour ≤ 23 ∧ minute ≤ 59 then
      let s1 : SchedulerState := { s with settings := { s.settings with time := time_str } }
      let s2 := save_scheduler_settings s1
      let s3 :=
        if s2.running then
          let s4 : SchedulerState := { s2 with running := false, loopTime := (hour, minute) }
          if s4.settings.enabled then { s4 with running := true } else s4
        else s2
      (s3, "✅ Fear & Greed Index wird jetzt täglich um " ++ time_str ++ " Uhr gepostet!")
    else
      (s, timeFormatError)

/-- `fng_time` invoked through the command dispatcher (bot.py line 433):
the parameter is declared `time_str: str = "20:00"`, so a missing
argument is filled with the default instead of raising
`MissingRequiredArgument` (which `on_command_error`, lines 500–509,
would turn into the missing-argument notice). -/
def fng_time_command (s : SchedulerState) (arg : Option String) : SchedulerState × String :=
  fng_time s (arg.getD "20:00")

/-- `fng_stop` (bot.py lines 399–411): clear `enabled`, persist, and
cancel the loop when it is running. -/
def fng_stop (s : SchedulerState) : SchedulerState × String :=
  let s1 : SchedulerState := { s with settings := { s.settings with enabled := false } }
  let s2 := save_scheduler_settings s1
  let s3 := if s2.running then { s2 with running := false } else s2
  (s3, "⏹️ Automatische Fear & Greed Index Posts wurden gestoppt.")

theorem pyIntAux_digits (cs : List Char) (acc v : Nat) (h : pyIntAux cs acc = some v) :
    ∀ c ∈ cs, c.isDigit = true := by
  induction cs generalizing acc with
  | nil => intro c hc; cases hc
  | cons hd tl ih =>
    intro c hc
    unfold pyIntAux at h
    by_cases hdig : hd.isDigit
    · rw [if_pos hdig] at h
      rcases List.mem_cons.mp hc with hc | hc
      · rw [hc]; exact hdig
      · exact ih _ h c hc
    · rw [if_neg hdig] at h
      exact absurd h (by simp)

theorem pyInt_digits (cs : List Char) (v : Nat) (h : pyInt cs = some v) :
    ∀ c ∈ cs, c.isDigit = true := by
  cases cs with
  | nil => intro c hc; cases hc
  | cons hd tl => exact pyIntAux_digits _ _ _ h

theorem pySplit_no_sep (sep : Char) (cs : List Char) (h : ∀ c ∈ cs, c ≠ sep) :
    pySplit sep cs = [cs] := by
  induction cs with
  | nil => rfl
  | cons hd tl ih =>
    have hhd : hd ≠ sep := h hd (List.mem_cons_self hd tl)
    have htl : pySplit sep tl = [tl] := ih fun c hc => h c (List.mem_cons_of_mem hd hc)
    unfold pySplit
    rw [if_neg hhd, htl]

theorem pySplit_append (sep : Char) (hs rest : List Char) (h : ∀ c ∈ hs, c ≠ sep) :
    pySplit sep (hs ++ sep :: rest) = hs :: pySplit sep rest := by
  induction hs with
  | nil =>
    show pySplit sep (sep :: rest) = [] :: pySplit sep rest
    simp [pySplit]
  | cons hd tl ih =>
    have hhd : hd ≠ sep := h hd (List.mem_cons_self hd tl)
    have htl := ih fun c hc => h c (List.mem_cons_of_mem hd hc)
    show pySplit sep (hd :: (tl ++ sep :: rest)) = (hd :: tl) :: pySplit sep rest
    simp [pySplit, hhd, htl]

theorem parseHM_mk (hs ms : List Char) (h m : Nat)
    (hh : pyInt hs = some h) (hm : pyInt ms = some m) :
    parseHM (String.mk (hs ++ ':' :: ms)) = some (h, m) := by
  have hnc1 : ∀ c ∈ hs, c ≠ ':' := by
    intro c hc he
    have := pyInt_digits hs h hh c hc
    rw [he] at this
    exact absurd this (by decide)
  have hnc2 : ∀ c ∈ ms, c ≠ ':' := by
    intro c hc he
    have := pyInt_digits ms m hm c hc
    rw [he] at this
    exact absurd this (by decide)
  show (match pySplit ':' (hs ++ ':' :: ms) with
    | [h, m] =>
      match pyInt h, pyInt m with
      | some hv, some mv => some (hv, mv)
      | _, _ => none
    | _ => none) = some (h, m)
  rw [pySplit_append ':' hs ms hnc1, pySplit_no_sep ':' ms hnc2]
  simp [hh, hm]

theorem fng_time_accept (s : SchedulerState) (tStr : String) (hour minute : Nat)
    (hp : parseHM tStr = some (hour, minute)) (hr : hour ≤ 23 ∧ minute ≤ 59) :
    (fng_time s tStr).1.settings.time = tStr ∧
    (fng_time s tStr).1.savedFile = some ((fng_time s tStr).1.settings) ∧
    (fng_time s tStr).2 =
      "✅ Fear & Greed Index wird jetzt täglich um " ++ tStr ++ " Uhr gepostet!" := by
  by_cases hrun : s.running <;> by_cases hen : s.settings.enabled <;>
    simp [fng_time, hp, hr.1, hr.2, save_scheduler_settings, hrun, hen]

theorem fng_time_reject (s : SchedulerState) (tStr : String) (hour minute : Nat)
    (hp : parseHM tStr = some (hour, minute)) (hr : ¬(hour ≤ 23 ∧ minute ≤ 59)) :
    fng_time s tStr = (s, timeFormatError) := by
  simp [fng_time, hp, hr]

/-- The scheduler state at startup with no persisted file: settings
default (bot.py lines 36–40), loop bound to 20:00 (line 225), not
running. -/
def schedState0 : SchedulerState :=
  { settings := { enabled := false, channel_id := none, time := "20:00" },
    savedFile := none, running := false, loopTime := (20, 0) }

/-- C7: the fng_time validation rejects "24:00" and "20:60" — replying
with the usage-error notice and leaving the whole state, the persisted
time included, unchanged — and accepts "00:00" and "23:59", persisting
the new time; and in general a string built as HH:MM from two numeric
fields is accepted exactly when the hour is at most 23 and the minute at
most 59. -/
theorem fng_time_validation (s : SchedulerState) (hs ms : List Char) (h m : Nat)
    (hh : pyInt hs = some h) (hm : pyInt ms = some m) :
    fng_time s "24:00" = (s, timeFormatError) ∧
    fng_time s "20:60" = (s, timeFormatError) ∧
    ((fng_time s "00:00").1.settings.time = "00:00" ∧
      (fng_time s "00:00").1.savedFile = some ((fng_time s "00:00").1.settings) ∧
      (fng_time s "00:00").2 =
        "✅ Fear & Greed Index wird jetzt täglich um 00:00 Uhr gepostet!") ∧
    ((fng_time s "23:59").1.settings.time = "23:59" ∧
      (fng_time s "23:59").1.savedFile = some ((fng_time s "23:59").1.settings) ∧
      (fng_time s "23:59").2 =
        "✅ Fear & Greed Index wird jetzt täglich um 23:59 Uhr gepostet!") ∧
    (h ≤ 23 ∧ m ≤ 59 →
      (fng_time s (String.mk (hs ++ ':' :: ms))).1.settings.time =
        String.mk (hs ++ ':' :: ms) ∧
      (fng_time s (String.mk (hs ++ ':' :: ms))).2 =
        "✅ Fear & Greed Index wird jetzt täglich um " ++ String.mk (hs ++ ':' :: ms) ++
          " Uhr gepostet!") ∧
    (¬(h ≤ 23 ∧ m ≤ 59) →
      fng_time s (String.mk (hs ++ ':' :: ms)) = (s, timeFormatError)) := by
  refine ⟨fng_time_reject s "24:00" 24 0 rfl (by decide),
    fng_time_reject s "20:60" 20 60 rfl (by decide),
    ?_, ?_, ?_, ?_⟩
  · exact fng_time_accept s "00:00" 0 0 rfl (by decide)
  · exact fng_time_accept s "23:59" 23 59 rfl (by decide)
  · intro hrange
    have hacc := fng_time_accept s (String.mk (hs ++ ':' :: ms)) h m
      (parseHM_mk hs ms h m hh hm) hrange
    exact ⟨hacc.1, hacc.2.2⟩
  · intro hrange
    exact fng_time_reject s (String.mk (hs ++ ':' :: ms)) h m
      (parseHM_mk hs ms h m hh hm) hrange

/-- Witness for `fng_time_validation` at the startup state with the
numeric fields "07" and "30". -/
theorem fng_time_validation_witness :
    fng_time schedState0 "24:00" = (schedState0, timeFormatError) ∧
    fng_time schedState0 "20:60" = (schedState0, timeFormatError) ∧
    ((fng_time schedState0 "00:00").1.settings.time = "00:00" ∧
      (fng_time schedState0 "00:00").1.savedFile =
        some ((fng_time schedState0 "00:00").1.settings) ∧
      (fng_time schedState0 "00:00").2 =
        "✅ Fear & Greed Index wird jetzt täglich um 00:00 Uhr gepostet!") ∧
    ((fng_time schedState0 "23:59").1.settings.time = "23:59" ∧
      (fng_time schedState0 "23:59").1.savedFile =
        some ((fng_time schedState0 "23:59").1.settings) ∧
      (fng_time schedState0 "23:59").2 =
        "✅ Fear & Greed Index wird jetzt täglich um 23:59 Uhr gepostet!") ∧
    (7 ≤ 23 ∧ 30 ≤ 59 →
      (fng_time schedState0 (String.mk (['0', '7'] ++ ':' :: ['3', '0']))).1.settings.time =
        String.mk (['0', '7'] ++ ':' :: ['3', '0']) ∧
      (fng_time schedState0 (String.mk (['0', '7'] ++ ':' :: ['3', '0']))).2 =
        "✅ Fear & Greed Index wird jetzt täglich um " ++
          String.mk (['0', '7'] ++ ':' :: ['3', '0']) ++ " Uhr gepostet!") ∧
    (¬(7 ≤ 23 ∧ 30 ≤ 59) →
      fng_time schedState0 (String.mk (['0', '7'] ++ ':' :: ['3', '0'])) =
        (schedState0, timeFormatError)) :=
  fng_time_validation schedState0 ['0', '7'] ['3', '0'] 7 30 rfl rfl

/-- C9: fng_stop sets only the enabled flag of the scheduler settings to
false and cancels the running task; the channel_id and time fields — in
memory and in the freshly persisted configuration — and the configured
loop time are left unchanged. -/
theorem fng_stop_frame (s : SchedulerState) :
    (fng_stop s).1.settings.enabled = false ∧
    (fng_stop s).1.settings.channel_id = s.settings.channel_id ∧
    (fng_stop s).1.settings.time = s.settings.time ∧
    (fng_stop s).1.running = false ∧
    (fng_stop s).1.loopTime = s.loopTime ∧
    (fng_stop s).1.savedFile = some { s.settings with enabled := false } := by
  by_cases hr : s.running <;> simp [fng_stop, save_scheduler_settings, hr]

/-- C10: invoking fng_time with no argument raises no
missing-required-argument error: the parameter defaults to "20:00",
which passes validation, so the command runs `fng_time` on "20:00" and
the scheduled time is set and persisted as "20:00", with the success
reply. -/
theorem fng_time_default_arg (s : SchedulerState) :
    fng_time_command s none = fng_time s "20:00" ∧
    (fng_time_command s none).1.settings.time = "20:00" ∧
    (fng_time_command s none).1.savedFile = some ((fng_time_command s none).1.settings) ∧
    (fng_time_command s none).2 =
      "✅ Fear & Greed Index wird jetzt täglich um 20:00 Uhr gepostet!" := by
  have hacc := fng_time_accept s "20:00" 20 0 rfl (by decide)
  exact ⟨rfl, hacc.1, hacc.2.1, hacc.2.2⟩

/-! ## Sentiment classification and bar (bot.py lines 181–223)

`get_fng_emoji` starts with `value = int(value)`, so it works on the
integer value, which the Fear & Greed API supplies in 0–100. In
`format_fng_message`, `filled = int(value / 10)`: for integers
0 ≤ value ≤ 100 the true-division quotient is within one unit in the
last place of the exact rational, which is at least 0.1 away from every
other integer, so truncating it equals `value / 10` in integer
division. -/

def get_fng_emoji (value : Nat) : String :=
  if value ≤ 25 then "😱"
  else if value ≤ 45 then "😰"
  else if value ≤ 55 then "😐"
  else if value ≤ 75 then "😊"
  else "🤑"

/-- Python string repetition `s * n`. -/
def strRepeat (s : String) : Nat → String
  | 0 => ""
  | n + 1 => s ++ strRepeat s n

/-- The visual bar of `format_fng_message` (bot.py lines 204–205):
`"🟩" * filled + "⬜" * (10 - filled)` with `filled = int(value / 10)`. -/
def fng_bar (value : Nat) : String :=
  strRepeat "🟩" (value / 10) ++ strRepeat "⬜" (10 - value / 10)

theorem strRepeat_single_data (c : Char) (n : Nat) :
    (strRepeat (String.mk [c]) n).data = List.replicate n c := by
  induction n with
  | zero => rfl
  | succ k ih =>
    show (String.mk [c] ++ strRepeat (String.mk [c]) k).data = _
    rw [String.data_append, ih, List.replicate_succ]
    rfl

/-- C8: for every sentiment value 0–100 the classification buckets it
into exactly five bands with thresholds at 25, 45, 55 and 75, each with
its fixed glyph, and the rendered bar consists of exactly
`⌊value/10⌋` filled segments out of 10. -/
theorem fng_classification (v : Nat) (hv : v ≤ 100) :
    ((fng_bar v).data.count '🟩' = v / 10 ∧
      (fng_bar v).data.count '⬜' = 10 - v / 10 ∧
      (fng_bar v).data.length = 10) ∧
    (v ≤ 25 → get_fng_emoji v = "😱") ∧
    (26 ≤ v → v ≤ 45 → get_fng_emoji v = "😰") ∧
    (46 ≤ v → v ≤ 55 → get_fng_emoji v = "😐") ∧
    (56 ≤ v → v ≤ 75 → get_fng_emoji v = "😊") ∧
    (76 ≤ v → get_fng_emoji v = "🤑") := by
  have hdata : (fng_bar v).data =
      List.replicate (v / 10) '🟩' ++ List.replicate (10 - v / 10) '⬜' := by
    show (strRepeat "🟩" (v / 10) ++ strRepeat "⬜" (10 - v / 10)).data = _
    rw [String.data_append]
    rw [show ("🟩" : String) = String.mk ['🟩'] from rfl]
    rw [show ("⬜" : String) = String.mk ['⬜'] from rfl]
    rw [strRepeat_single_data, strRepeat_single_data]
  have hdiv : v / 10 ≤ 10 := by omega
  refine ⟨⟨?_, ?_, ?_⟩, ?_, ?_, ?_, ?_, ?_⟩
  · rw [hdata, List.count_append, List.count_replicate_self, List.count_replicate]
    simp
  · rw [hdata, List.count_append, List.count_replicate_self, List.count_replicate]
    simp
  · rw [hdata, List.length_append, List.length_replicate, List.length_replicate]
    omega
  · intro h
    unfold get_fng_emoji
    rw [if_pos h]
  · intro h1 h2
    unfold get_fng_emoji
    rw [if_neg (by omega), if_pos h2]
  · intro h1 h2
    unfold get_fng_emoji
    rw [if_neg (by omega), if_neg (by omega), if_pos h2]
  · intro h1 h2
    unfold get_fng_emoji
    rw [if_neg (by omega), if_neg (by omega), if_neg (by omega), if_pos h2]
  · intro h1
    unfold get_fng_emoji
    rw [if_neg (by omega), if_neg (by omega), if_neg (by omega), if_neg (by omega)]

/-- Witness for `fng_classification` at value 57: five filled segments,
five empty ones, and the Greed glyph. -/
theorem fng_classification_witness :
    (((fng_bar 57).data.count '🟩' = 57 / 10 ∧
      (fng_bar 57).data.count '⬜' = 10 - 57 / 10 ∧
      (fng_bar 57).data.length = 10) ∧
    (57 ≤ 25 → get_fng_emoji 57 = "😱") ∧
    (26 ≤ 57 → 57 ≤ 45 → get_fng_emoji 57 = "😰") ∧
    (46 ≤ 57 → 57 ≤ 55 → get_fng_emoji 57 = "😐") ∧
    (56 ≤ 57 → 57 ≤ 75 → get_fng_emoji 57 = "😊") ∧
    (76 ≤ 57 → get_fng_emoji 57 = "🤑")) :=
  fng_classification 57 (by decide)
